import Mathlib

/-!
Verification of the lyrics-matching resolver of `lrclib-fetcher-ts`
(`src/api/lrclib.ts`, class `LrcLibClient`).

The resolver is embedded shallowly: each method of the class becomes a pure
Lean function.  The HTTP transport is modelled as an explicit record of the
three possible responses (one per search tier); a `resolve` call consumes it
deterministically, so every behaviour of the TypeScript code on a given
transport corresponds to evaluating `searchLyrics` on the matching
`Transport` value.  JavaScript truthiness on strings (`""` is falsy) is made
explicit via `jsOrS` / `probeKeys`.
-/

namespace LrcLib

/-- The `TrackMetadata` interface from `src/types/index.ts` (fields used by
the resolver). -/
structure TrackMetadata where
  artist : String
  title : String
  album : Option String := none
  duration : Option Nat := none
  deriving Repr, DecidableEq

/-- The `LyricSearchOptions` interface from the types module
(`src/unnamed/part_003` line 84): two optional boolean fields,
`allowTitleOnlySearch?` and `preferSynced?`, read by the resolver with
optional chaining (`options?.preferSynced`, `options?.allowTitleOnlySearch`). -/
structure LyricSearchOptions where
  allowTitleOnlySearch : Option Bool := none
  preferSynced : Option Bool := none
  deriving Repr, DecidableEq

/-- Embeds `options?.preferSynced !== false  // Default to true if not
specified` (`lrclib.ts` line 202). -/
def getPreferSynced (options : Option LyricSearchOptions) : Bool :=
  match options with
  | none => true
  | some o =>
    match o.preferSynced with
    | none => true
    | some b => b

/-- Embeds `if (options?.allowTitleOnlySearch)` (`lrclib.ts` line 233):
truthiness of an optionally-chained boolean. -/
def getAllowTitleOnly (options : Option LyricSearchOptions) : Bool :=
  match options with
  | none => false
  | some o => o.allowTitleOnlySearch.getD false

/-- A raw candidate record from the external service: every key spelling the
mapper probes, each `none` when the key is absent.  `instrumental` is
`Option Bool` so that an absent key (falsy in JS) is distinguishable from an
explicit `false` for the empty-object check. -/
structure RawCandidate where
  artistName : Option String := none
  artist_name : Option String := none
  artist : Option String := none
  trackName : Option String := none
  track_name : Option String := none
  title : Option String := none
  albumName : Option String := none
  album_name : Option String := none
  album : Option String := none
  syncedLyrics : Option String := none
  synced_lyrics : Option String := none
  lrc : Option String := none
  plainLyrics : Option String := none
  plain_lyrics : Option String := none
  text : Option String := none
  instrumental : Option Bool := none
  deriving Repr, DecidableEq

/-- Embeds `Object.keys(data).length === 0`: every modelled key is absent. -/
def RawCandidate.isEmptyObj (c : RawCandidate) : Bool :=
  c.artistName.isNone && c.artist_name.isNone && c.artist.isNone &&
  c.trackName.isNone && c.track_name.isNone && c.title.isNone &&
  c.albumName.isNone && c.album_name.isNone && c.album.isNone &&
  c.syncedLyrics.isNone && c.synced_lyrics.isNone && c.lrc.isNone &&
  c.plainLyrics.isNone && c.plain_lyrics.isNone && c.text.isNone &&
  c.instrumental.isNone

/-- JavaScript `a || b` on string-valued keys: an absent key (`none`) and the
empty string are both falsy. -/
def jsOrS (a b : Option String) : Option String :=
  match a with
  | none => b
  | some s => if s = "" then b else some s

/-- The `LyricResult` record as built by `processApiResponse` (`lrclib.ts`
lines 606-614). -/
structure LyricResult where
  artist : String
  title : String
  album : String
  syncedLyrics : Option String
  plainLyrics : Option String
  source : String
  instrumental : Bool
  deriving Repr, DecidableEq

/-- Embeds `processApiResponse` (`lrclib.ts` lines 550-626): probe the alias
chains with JS `||`, discard contentless candidates. -/
def processApiResponse (data : RawCandidate) (metadata : TrackMetadata) :
    Option LyricResult :=
  if data.isEmptyObj then none
  else
    let artist := (jsOrS (jsOrS (jsOrS data.artistName data.artist_name)
      data.artist) (some metadata.artist)).getD ""
    let title := (jsOrS (jsOrS (jsOrS data.trackName data.track_name)
      data.title) (some metadata.title)).getD ""
    let album := (jsOrS (jsOrS (jsOrS (jsOrS data.albumName data.album_name)
      data.album) metadata.album) (some "")).getD ""
    let syncedLyrics := jsOrS (jsOrS (jsOrS data.syncedLyrics
      data.synced_lyrics) data.lrc) none
    let plainLyrics := jsOrS (jsOrS (jsOrS data.plainLyrics
      data.plain_lyrics) data.text) none
    if syncedLyrics.isNone && plainLyrics.isNone &&
        !(data.instrumental.getD false) then
      none
    else
      some { artist := artist, title := title, album := album,
             syncedLyrics := syncedLyrics, plainLyrics := plainLyrics,
             source := "lrclib.net",
             instrumental := data.instrumental.getD false }

/-- Substring search over character lists (`needle` occurs inside `hay`). -/
def listIncludes (needle : List Char) : List Char → Bool
  | [] => needle.isEmpty
  | c :: rest => needle.isPrefixOf (c :: rest) || listIncludes needle rest

/-- JavaScript `hay.includes(needle)`: substring containment. -/
def strIncludes (hay needle : String) : Bool :=
  listIncludes needle.data hay.data

/-- JavaScript `s.toLowerCase()` (over the ASCII range relevant here),
defined over the character list so it reduces in the kernel. -/
def strToLower (s : String) : String :=
  String.mk (s.data.map Char.toLower)

/-- The per-candidate test inside `findBestMatch` (`lrclib.ts` lines
528-534): bidirectional case-insensitive substring containment between the
candidate artist (`result.artistName?.toLowerCase() || ''`) and the query
artist. -/
def artistMatchTest (metadata : TrackMetadata) (result : RawCandidate) : Bool :=
  let resultArtist := (result.artistName.map strToLower).getD ""
  let searchArtist := strToLower metadata.artist
  strIncludes resultArtist searchArtist || strIncludes searchArtist resultArtist

/-- Embeds `findBestMatch` (`lrclib.ts` lines 524-544): first candidate
passing the artist test, else the first candidate (`none` only on the empty
list, where JS would yield `undefined`). -/
def findBestMatch (results : List RawCandidate) (metadata : TrackMetadata) :
    Option RawCandidate :=
  let artistMatches := results.filter (artistMatchTest metadata)
  match artistMatches with
  | r :: _ => some r
  | [] => results.head?

/-- A JSON response body of the lookup service, as the tier functions
distinguish them: `null`, an array of candidate records, or a single object
(`lrclib.ts` lines 294-324). -/
inductive ResponseData where
  | nullData
  | arr (cs : List RawCandidate)
  | obj (c : RawCandidate)
  deriving Repr, DecidableEq

/-- Outcome of one HTTP GET against the service: a body, or a thrown
transport error carrying a message. -/
inductive TransportResult where
  | ok (data : ResponseData)
  | err (msg : String)
  deriving Repr, DecidableEq

/-- The transport seen by one `searchLyrics` call: at most one query is
issued per tier, so the call's view of the network is one response per
tier. -/
structure Transport where
  exactResp : TransportResult
  artistTitleResp : TransportResult
  titleOnlyResp : TransportResult

/-- The `LyricsFetchError` class from `src/utils/errorHandling.ts`. -/
structure LyricsFetchError where
  artist : String
  title : String
  reason : String
  deriving Repr, DecidableEq

/-- Message built by the `LyricsFetchError` constructor:
`Failed to fetch lyrics for "artist - title": reason`. -/
def LyricsFetchError.message (e : LyricsFetchError) : String :=
  "Failed to fetch lyrics for \"" ++ e.artist ++ " - " ++ e.title ++ "\": "
    ++ e.reason

/-- Response handling of `findExactMatch` (`lrclib.ts` lines 294-324): an
array contributes only its first element, a single object is processed
directly, `null` and `[]` yield nothing. -/
def findExactMatchData (data : ResponseData) (metadata : TrackMetadata) :
    Option LyricResult :=
  match data with
  | .nullData => none
  | .arr [] => none
  | .arr (c :: _) => processApiResponse c metadata
  | .obj c => processApiResponse c metadata

/-- Response handling of `findByArtistAndTitle` (`lrclib.ts` lines 375-403):
identical to the exact-match tier. -/
def findByArtistAndTitleData (data : ResponseData) (metadata : TrackMetadata) :
    Option LyricResult :=
  match data with
  | .nullData => none
  | .arr [] => none
  | .arr (c :: _) => processApiResponse c metadata
  | .obj c => processApiResponse c metadata

/-- Response handling of `findByTitleOnly` (`lrclib.ts` lines 454-493): a
non-empty array goes through `findBestMatch`; a single object is processed
directly. -/
def findByTitleOnlyData (data : ResponseData) (metadata : TrackMetadata) :
    Option LyricResult :=
  match data with
  | .nullData => none
  | .arr [] => none
  | .arr (c :: rest) =>
    match findBestMatch (c :: rest) metadata with
    | some best => processApiResponse best metadata
    | none => none
  | .obj c => processApiResponse c metadata

/-- Embeds `findExactMatch` (`lrclib.ts` lines 268-348): a transport error is
rethrown as-is (the inner catch only logs), a body is processed. -/
def findExactMatch (resp : TransportResult) (metadata : TrackMetadata) :
    Except String (Option LyricResult) :=
  match resp with
  | .err msg => .error msg
  | .ok data => .ok (findExactMatchData data metadata)

/-- Embeds `findByArtistAndTitle` (`lrclib.ts` lines 353-429): a transport
error is wrapped in a `LyricsFetchError` before propagating. -/
def findByArtistAndTitle (resp : TransportResult) (metadata : TrackMetadata) :
    Except String (Option LyricResult) :=
  match resp with
  | .err msg =>
    .error (LyricsFetchError.message ⟨metadata.artist, metadata.title, msg⟩)
  | .ok data => .ok (findByArtistAndTitleData data metadata)

/-- Embeds `findByTitleOnly` (`lrclib.ts` lines 434-519): a transport error
is wrapped in a `LyricsFetchError` before propagating. -/
def findByTitleOnly (resp : TransportResult) (metadata : TrackMetadata) :
    Except String (Option LyricResult) :=
  match resp with
  | .err msg =>
    .error (LyricsFetchError.message ⟨metadata.artist, metadata.title, msg⟩)
  | .ok data => .ok (findByTitleOnlyData data metadata)

/-- Result of one `searchLyrics` call: a `LyricResult`, `null`, or a thrown
`LyricsFetchError`. -/
inductive ResolveOutcome where
  | found (r : LyricResult)
  | notFound
  | fetchError (e : LyricsFetchError)
  deriving Repr, DecidableEq

/-- Tag for each of the three external queries a `searchLyrics` call can
issue. -/
inductive QueryKind where
  | exact
  | artistTitle
  | titleOnly
  deriving Repr, DecidableEq

/-- The guard `preferSynced && !m.syncedLyrics && !m.instrumental` of
`lrclib.ts` lines 213, 224, 236: `true` means the match is recorded as a
fallback and the search continues. -/
def continueSearch (preferSynced : Bool) (m : LyricResult) : Bool :=
  preferSynced && m.syncedLyrics.isNone && !m.instrumental

/-- The final fallback block of `searchLyrics` (`lrclib.ts` lines 245-258):
exact match first, then artist/title, then title-only, else `null`. -/
def fallbackReturn (exactMatch artistTitleMatch titleMatch : Option LyricResult)
    (queries : List QueryKind) : ResolveOutcome × List QueryKind :=
  match exactMatch with
  | some r => (.found r, queries)
  | none =>
    match artistTitleMatch with
    | some r => (.found r, queries)
    | none =>
      match titleMatch with
      | some r => (.found r, queries)
      | none => (.notFound, queries)

/-- Tier 3 of `searchLyrics` (`lrclib.ts` lines 232-243) followed by the
fallback block; skipped entirely unless `allowTitleOnly`. -/
def searchTier3 (t : Transport) (metadata : TrackMetadata)
    (preferSynced allowTitleOnly : Bool)
    (exactMatch artistTitleMatch : Option LyricResult)
    (queries : List QueryKind) : ResolveOutcome × List QueryKind :=
  if allowTitleOnly then
    match findByTitleOnly t.titleOnlyResp metadata with
    | .error msg =>
      (.fetchError ⟨metadata.artist, metadata.title, msg⟩,
        queries ++ [QueryKind.titleOnly])
    | .ok titleMatch =>
      match titleMatch with
      | some r =>
        if continueSearch preferSynced r then
          fallbackReturn exactMatch artistTitleMatch titleMatch
            (queries ++ [QueryKind.titleOnly])
        else (.found r, queries ++ [QueryKind.titleOnly])
      | none =>
        fallbackReturn exactMatch artistTitleMatch none
          (queries ++ [QueryKind.titleOnly])
  else fallbackReturn exactMatch artistTitleMatch none queries

/-- Tier 2 of `searchLyrics` (`lrclib.ts` lines 221-230) and everything after
it. -/
def searchTier2 (t : Transport) (metadata : TrackMetadata)
    (preferSynced allowTitleOnly : Bool) (exactMatch : Option LyricResult)
    (queries : List QueryKind) : ResolveOutcome × List QueryKind :=
  match findByArtistAndTitle t.artistTitleResp metadata with
  | .error msg =>
    (.fetchError ⟨metadata.artist, metadata.title, msg⟩,
      queries ++ [QueryKind.artistTitle])
  | .ok artistTitleMatch =>
    match artistTitleMatch with
    | some r =>
      if continueSearch preferSynced r then
        searchTier3 t metadata preferSynced allowTitleOnly exactMatch
          artistTitleMatch (queries ++ [QueryKind.artistTitle])
      else (.found r, queries ++ [QueryKind.artistTitle])
    | none =>
      searchTier3 t metadata preferSynced allowTitleOnly exactMatch none
        (queries ++ [QueryKind.artistTitle])

/-- Embeds `searchLyrics` (`lrclib.ts` lines 197-263), the resolver's public
entry point.  Returns the outcome together with the list of external queries
issued, in order. -/
def searchLyrics (t : Transport) (metadata : TrackMetadata)
    (options : Option LyricSearchOptions) : ResolveOutcome × List QueryKind :=
  let preferSynced := getPreferSynced options
  let allowTitleOnly := getAllowTitleOnly options
  match findExactMatch t.exactResp metadata with
  | .error msg =>
    (.fetchError ⟨metadata.artist, metadata.title, msg⟩, [QueryKind.exact])
  | .ok exactMatch =>
    match exactMatch with
    | some r =>
      if continueSearch preferSynced r then
        searchTier2 t metadata preferSynced allowTitleOnly exactMatch
          [QueryKind.exact]
      else (.found r, [QueryKind.exact])
    | none =>
      searchTier2 t metadata preferSynced allowTitleOnly none
        [QueryKind.exact]

/-- Spec-side: a match fully satisfies the synced-lyrics preference when it
has synced lyrics or is instrumental. -/
def satisfiesPreference (r : LyricResult) : Bool :=
  r.syncedLyrics.isSome || r.instrumental

/-- Spec-side: first recorded tier match (in tier order) satisfying the
synced-lyrics preference. -/
def firstPreferred : List (Option LyricResult) → Option LyricResult
  | [] => none
  | none :: rest => firstPreferred rest
  | some r :: rest =>
    if satisfiesPreference r then some r else firstPreferred rest

/-- Spec-side: first recorded tier match in tier order. -/
def firstRecorded : List (Option LyricResult) → Option LyricResult
  | [] => none
  | none :: rest => firstRecorded rest
  | some r :: _ => some r

/-- Spec-side formulation of the synced-lyrics preference policy of §4.1:
return the first tier match that is synced or instrumental; failing that, the
first recorded fallback in tier order; failing that, NotFound. -/
def preferSyncedPolicy (m1 m2 m3 : Option LyricResult) : ResolveOutcome :=
  match firstPreferred [m1, m2, m3] with
  | some r => .found r
  | none =>
    match firstRecorded [m1, m2, m3] with
    | some r => .found r
    | none => .notFound

/-- Spec-side: probe an ordered list of key spellings and take the first
present, non-empty value. -/
def probeKeys : List (Option String) → Option String
  | [] => none
  | o :: rest =>
    match o with
    | some s => if s = "" then probeKeys rest else some s
    | none => probeKeys rest

/-- Spec-side: a `LyricResult` is content-bearing when it has non-empty
synced lyrics, non-empty plain lyrics, or the instrumental flag. -/
def contentBearing (r : LyricResult) : Prop :=
  (∃ s, r.syncedLyrics = some s ∧ s ≠ "") ∨
  (∃ s, r.plainLyrics = some s ∧ s ≠ "") ∨
  r.instrumental = true

/-- Spec-side: the empty response bodies of §4.1 (`null`, `[]`, `{}`). -/
def emptyBody (d : ResponseData) : Prop :=
  d = .nullData ∨ d = .arr [] ∨ d = .obj {}

end LrcLib

namespace LrcLib

theorem filter_head_eq_find (p : RawCandidate → Bool) (l : List RawCandidate) :
    (l.filter p).head? = l.find? p := by
  induction l with
  | nil => rfl
  | cons a t ih =>
    by_cases h : p a <;> simp [List.filter_cons, List.find?_cons, h, ih]

theorem continueSearch_true_eq (r : LyricResult) :
    continueSearch true r = !satisfiesPreference r := by
  unfold continueSearch satisfiesPreference
  cases h : r.syncedLyrics <;> cases hi : r.instrumental <;>
    simp [Option.isNone, Option.isSome, h, hi]

theorem continueSearch_false_eq (r : LyricResult) :
    continueSearch false r = false := by
  simp [continueSearch]

/-- Head of a singleton list survives `findBestMatch` whatever the artist
test says. -/
theorem findBestMatch_singleton (c : RawCandidate) (md : TrackMetadata) :
    findBestMatch [c] md = some c := by
  unfold findBestMatch
  by_cases h : artistMatchTest md c <;> simp [List.filter, h]

/-- C5: for every non-empty title-only candidate list the resolver selects
the first candidate passing the bidirectional case-insensitive containment
test, else the first candidate; in particular for candidates
`[{artist:"The Beatles"}, {artist:"Beatles"}]` and query artist `"Beatles"`
the candidate at index 0 is selected. -/
theorem findBestMatch_selects_first_artist_match
    (results : List RawCandidate) (md : TrackMetadata) (h : results ≠ []) :
    (findBestMatch results md =
      match results.find? (artistMatchTest md) with
      | some r => some r
      | none => results.head?) ∧
    findBestMatch
      [{ artistName := some "The Beatles" }, { artistName := some "Beatles" }]
      ⟨"Beatles", "Help", none, none⟩ =
      some { artistName := some "The Beatles" } := by
  refine ⟨?_, by decide⟩
  unfold findBestMatch
  rw [← filter_head_eq_find]
  cases hf : results.filter (artistMatchTest md) <;> simp [hf]

theorem findBestMatch_selects_first_artist_match_witness :
    (([{ artistName := some "The Beatles" },
       { artistName := some "Beatles" }] : List RawCandidate) ≠ []) ∧
    findBestMatch
      [{ artistName := some "The Beatles" }, { artistName := some "Beatles" }]
      ⟨"Beatles", "Help", none, none⟩ =
      some { artistName := some "The Beatles" } :=
  ⟨by decide,
   (findBestMatch_selects_first_artist_match
     [{ artistName := some "The Beatles" }, { artistName := some "Beatles" }]
     ⟨"Beatles", "Help", none, none⟩ (by decide)).2⟩

/-- C9: tiers 1 and 2 consider only the element at index 0 of an array
response: the tier result is `processApiResponse` of the head, independent of
the remaining elements, and a contentless head makes the tier yield nothing
whatever follows it. -/
theorem tiers12_use_only_first_element (md : TrackMetadata)
    (c : RawCandidate) (rest : List RawCandidate) :
    findExactMatchData (.arr (c :: rest)) md = processApiResponse c md ∧
    findByArtistAndTitleData (.arr (c :: rest)) md = processApiResponse c md ∧
    (processApiResponse c md = none →
      findExactMatchData (.arr (c :: rest)) md = none ∧
      findByArtistAndTitleData (.arr (c :: rest)) md = none) := by
  refine ⟨rfl, rfl, fun h => ⟨h, h⟩⟩

theorem tiers12_use_only_first_element_witness :
    processApiResponse {} ⟨"A", "T", none, none⟩ = none ∧
    findExactMatchData
      (.arr [{}, { syncedLyrics := some "[00:01] x" }]) ⟨"A", "T", none, none⟩
      = none ∧
    findByArtistAndTitleData
      (.arr [{}, { syncedLyrics := some "[00:01] x" }]) ⟨"A", "T", none, none⟩
      = none :=
  ⟨by decide,
   ((tiers12_use_only_first_element ⟨"A", "T", none, none⟩ {}
      [{ syncedLyrics := some "[00:01] x" }]).2.2 (by decide)).1,
   ((tiers12_use_only_first_element ⟨"A", "T", none, none⟩ {}
      [{ syncedLyrics := some "[00:01] x" }]).2.2 (by decide)).2⟩

/-- C10: a candidate with an absent or empty artist field always passes the
containment test, so the first such candidate after any run of non-matching
candidates is selected ahead of any later, genuinely matching candidate; and
with an empty query artist every candidate passes, so the head of the
response is always selected. -/
theorem listIncludes_nil (l : List Char) : listIncludes [] l = true := by
  induction l with
  | nil => rfl
  | cons a t ih => simp [listIncludes, List.isPrefixOf, ih]

theorem findBestMatch_empty_artist_always_matches (md : TrackMetadata)
    (c : RawCandidate)
    (hc : c.artistName = none ∨ c.artistName = some "") :
    artistMatchTest md c = true ∧
    (∀ pre post : List RawCandidate,
      (∀ x ∈ pre, artistMatchTest md x = false) →
      findBestMatch (pre ++ c :: post) md = some c) ∧
    (∀ results : List RawCandidate, md.artist = "" →
      findBestMatch results md = results.head?) := by
  have hed : ("" : String).data = [] := rfl
  have hets : (strToLower "").data = [] := rfl
  have hmatch : artistMatchTest md c = true := by
    unfold artistMatchTest
    rcases hc with h | h <;>
      simp [h, strIncludes, listIncludes_nil, hed, hets]
  refine ⟨hmatch, ?_, ?_⟩
  · intro pre post hpre
    have hfp : pre.filter (artistMatchTest md) = [] := by
      rw [List.filter_eq_nil_iff]
      intro a ha
      simp [hpre a ha]
    unfold findBestMatch
    rw [List.filter_append, hfp, List.nil_append, List.filter_cons,
      if_pos hmatch]
  · intro results hq
    have hall : ∀ x : RawCandidate, artistMatchTest md x = true := by
      intro x
      unfold artistMatchTest
      rw [hq]
      simp [strIncludes, listIncludes_nil, hets]
    unfold findBestMatch
    have hfe : results.filter (artistMatchTest md) = results :=
      List.filter_eq_self.mpr (fun a _ => hall a)
    rw [hfe]
    cases results <;> simp

theorem findBestMatch_empty_artist_always_matches_witness :
    (({} : RawCandidate).artistName = none ∨
      ({} : RawCandidate).artistName = some "") ∧
    (∀ x ∈ [({ artistName := some "ZZZ" } : RawCandidate)],
      artistMatchTest ⟨"Beatles", "Help", none, none⟩ x = false) ∧
    findBestMatch
      [{ artistName := some "ZZZ" }, {}, { artistName := some "Beatles" }]
      ⟨"Beatles", "Help", none, none⟩ = some {} ∧
    findBestMatch [{ artistName := some "Q" }] ⟨"", "Help", none, none⟩ =
      some { artistName := some "Q" } :=
  ⟨Or.inl rfl, by decide,
   (findBestMatch_empty_artist_always_matches ⟨"Beatles", "Help", none, none⟩
     {} (Or.inl rfl)).2.1 [{ artistName := some "ZZZ" }]
     [{ artistName := some "Beatles" }] (by decide),
   (findBestMatch_empty_artist_always_matches ⟨"", "Help", none, none⟩
     {} (Or.inl rfl)).2.2 [{ artistName := some "Q" }] rfl⟩

theorem fallbackReturn_snd (em am tm : Option LyricResult)
    (qs : List QueryKind) : (fallbackReturn em am tm qs).2 = qs := by
  cases em <;> cases am <;> cases tm <;> rfl

theorem fallbackReturn_fst_ne_error (em am tm : Option LyricResult)
    (qs : List QueryKind) (e : LyricsFetchError) :
    (fallbackReturn em am tm qs).1 ≠ .fetchError e := by
  cases em <;> cases am <;> cases tm <;> simp [fallbackReturn]

theorem searchTier3_snd (t : Transport) (md : TrackMetadata)
    (ps allow : Bool) (em am : Option LyricResult) (qs : List QueryKind) :
    (searchTier3 t md ps allow em am qs).2 = qs ∨
    (searchTier3 t md ps allow em am qs).2 = qs ++ [QueryKind.titleOnly] := by
  unfold searchTier3
  cases allow
  · simp [fallbackReturn_snd]
  · cases h : findByTitleOnly t.titleOnlyResp md with
    | error msg => simp
    | ok tm =>
      cases tm with
      | none => simp [fallbackReturn_snd]
      | some r =>
        by_cases hc : continueSearch ps r <;> simp [hc, fallbackReturn_snd]

theorem searchTier2_snd (t : Transport) (md : TrackMetadata)
    (ps allow : Bool) (em : Option LyricResult) (qs : List QueryKind) :
    (searchTier2 t md ps allow em qs).2 = qs ++ [QueryKind.artistTitle] ∨
    (searchTier2 t md ps allow em qs).2 =
      qs ++ [QueryKind.artistTitle] ++ [QueryKind.titleOnly] := by
  unfold searchTier2
  cases h : findByArtistAndTitle t.artistTitleResp md with
  | error msg => simp
  | ok am =>
    cases am with
    | none => exact searchTier3_snd t md ps allow em none _
    | some r =>
      by_cases hc : continueSearch ps r
      · simp only [hc, if_true]
        exact searchTier3_snd t md ps allow em (some r) _
      · simp [hc]

theorem searchTier3_snd_of_not_allowed (t : Transport) (md : TrackMetadata)
    (ps : Bool) (em am : Option LyricResult) (qs : List QueryKind) :
    (searchTier3 t md ps false em am qs).2 = qs := by
  unfold searchTier3
  simp [fallbackReturn_snd]

theorem searchTier2_snd_of_not_allowed (t : Transport) (md : TrackMetadata)
    (ps : Bool) (em : Option LyricResult) (qs : List QueryKind) :
    (searchTier2 t md ps false em qs).2 = qs ++ [QueryKind.artistTitle] := by
  unfold searchTier2
  cases h : findByArtistAndTitle t.artistTitleResp md with
  | error msg => simp
  | ok am =>
    cases am with
    | none => exact searchTier3_snd_of_not_allowed t md ps em none _
    | some r =>
      by_cases hc : continueSearch ps r
      · simp only [hc, if_true]
        exact searchTier3_snd_of_not_allowed t md ps em (some r) _
      · simp [hc]

/-- Queries issued by `searchLyrics`: `[exact]` alone, or followed by
`artistTitle`, optionally followed by `titleOnly`. -/
theorem searchLyrics_snd (t : Transport) (md : TrackMetadata)
    (o : Option LyricSearchOptions) :
    (searchLyrics t md o).2 = [QueryKind.exact] ∨
    (searchLyrics t md o).2 = [QueryKind.exact, QueryKind.artistTitle] ∨
    (searchLyrics t md o).2 =
      [QueryKind.exact, QueryKind.artistTitle, QueryKind.titleOnly] := by
  unfold searchLyrics
  cases h : findExactMatch t.exactResp md with
  | error msg => simp
  | ok em =>
    have step : ∀ em' : Option LyricResult,
        (searchTier2 t md (getPreferSynced o) (getAllowTitleOnly o) em'
          [QueryKind.exact]).2 = [QueryKind.exact, QueryKind.artistTitle] ∨
        (searchTier2 t md (getPreferSynced o) (getAllowTitleOnly o) em'
          [QueryKind.exact]).2 =
          [QueryKind.exact, QueryKind.artistTitle, QueryKind.titleOnly] := by
      intro em'
      rcases searchTier2_snd t md (getPreferSynced o) (getAllowTitleOnly o)
        em' [QueryKind.exact] with h2 | h2 <;> rw [h2] <;> simp
    cases em with
    | none =>
      rcases step none with h2 | h2 <;> simp [h2]
    | some r =>
      by_cases hc : continueSearch (getPreferSynced o) r
      · simp only [hc, if_true]
        rcases step (some r) with h2 | h2 <;> simp [h2]
      · simp [hc]

/-- C4: when `allowTitleOnlySearch` is false or absent, no title-only query
is ever issued and at most two external queries happen. -/
theorem no_title_only_query_when_disallowed (t : Transport)
    (md : TrackMetadata) (o : Option LyricSearchOptions)
    (h : getAllowTitleOnly o = false) :
    QueryKind.titleOnly ∉ (searchLyrics t md o).2 ∧
    (searchLyrics t md o).2.length ≤ 2 := by
  have hq : (searchLyrics t md o).2 = [QueryKind.exact] ∨
      (searchLyrics t md o).2 = [QueryKind.exact, QueryKind.artistTitle] := by
    unfold searchLyrics
    cases he : findExactMatch t.exactResp md with
    | error msg => simp
    | ok em =>
      have step : ∀ em' : Option LyricResult,
          (searchTier2 t md (getPreferSynced o) (getAllowTitleOnly o) em'
            [QueryKind.exact]).2 =
            [QueryKind.exact, QueryKind.artistTitle] := by
        intro em'
        rw [h]
        exact searchTier2_snd_of_not_allowed t md (getPreferSynced o) em' _
      cases em with
      | none => simp [step none]
      | some r =>
        by_cases hc : continueSearch (getPreferSynced o) r
        · simp only [hc, if_true]
          simp [step (some r)]
        · simp [hc]
  rcases hq with hq | hq <;> rw [hq] <;> simp

theorem no_title_only_query_when_disallowed_witness :
    getAllowTitleOnly none = false ∧
    (QueryKind.titleOnly ∉
      (searchLyrics ⟨.ok .nullData, .ok .nullData, .ok .nullData⟩
        ⟨"A", "T", none, none⟩ none).2 ∧
     (searchLyrics ⟨.ok .nullData, .ok .nullData, .ok .nullData⟩
        ⟨"A", "T", none, none⟩ none).2.length ≤ 2) :=
  ⟨by decide,
   no_title_only_query_when_disallowed
     ⟨.ok .nullData, .ok .nullData, .ok .nullData⟩
     ⟨"A", "T", none, none⟩ none (by decide)⟩

/-- C3: with `preferSynced=false` the first tier producing a content-bearing
candidate returns it immediately, issuing no further queries. -/
theorem first_candidate_returned_when_not_prefer_synced (t : Transport)
    (md : TrackMetadata) (o : Option LyricSearchOptions)
    (hp : getPreferSynced o = false) :
    (∀ d1 r, t.exactResp = .ok d1 → findExactMatchData d1 md = some r →
      searchLyrics t md o = (.found r, [QueryKind.exact])) ∧
    (∀ d1 d2 r, t.exactResp = .ok d1 → findExactMatchData d1 md = none →
      t.artistTitleResp = .ok d2 → findByArtistAndTitleData d2 md = some r →
      searchLyrics t md o =
        (.found r, [QueryKind.exact, QueryKind.artistTitle])) ∧
    (∀ d1 d2 d3 r, t.exactResp = .ok d1 → findExactMatchData d1 md = none →
      t.artistTitleResp = .ok d2 → findByArtistAndTitleData d2 md = none →
      getAllowTitleOnly o = true →
      t.titleOnlyResp = .ok d3 → findByTitleOnlyData d3 md = some r →
      searchLyrics t md o =
        (.found r,
          [QueryKind.exact, QueryKind.artistTitle, QueryKind.titleOnly])) := by
  refine ⟨?_, ?_, ?_⟩
  · intro d1 r h1 hm1
    unfold searchLyrics findExactMatch
    rw [h1, hp]
    simp [hm1, continueSearch_false_eq]
  · intro d1 d2 r h1 hm1 h2 hm2
    unfold searchLyrics findExactMatch searchTier2 findByArtistAndTitle
    rw [h1, h2, hp]
    simp [hm1, hm2, continueSearch_false_eq]
  · intro d1 d2 d3 r h1 hm1 h2 hm2 hallow h3 hm3
    unfold searchLyrics findExactMatch searchTier2 findByArtistAndTitle
      searchTier3 findByTitleOnly
    rw [h1, h2, h3, hp, hallow]
    simp [hm1, hm2, hm3, continueSearch_false_eq]

theorem first_candidate_returned_when_not_prefer_synced_witness :
    getPreferSynced (some { preferSynced := some false }) = false ∧
    (TransportResult.ok (ResponseData.arr [{ plainLyrics := some "words" }]) =
      .ok (.arr [{ plainLyrics := some "words" }])) ∧
    findExactMatchData (.arr [{ plainLyrics := some "words" }])
      ⟨"A", "T", none, none⟩ =
      some ⟨"A", "T", "", none, some "words", "lrclib.net", false⟩ ∧
    searchLyrics
      ⟨.ok (.arr [{ plainLyrics := some "words" }]), .ok .nullData,
        .ok .nullData⟩
      ⟨"A", "T", none, none⟩ (some { preferSynced := some false }) =
      (.found ⟨"A", "T", "", none, some "words", "lrclib.net", false⟩,
        [QueryKind.exact]) :=
  ⟨by decide, rfl, by decide,
   (first_candidate_returned_when_not_prefer_synced
     ⟨.ok (.arr [{ plainLyrics := some "words" }]), .ok .nullData,
       .ok .nullData⟩
     ⟨"A", "T", none, none⟩ (some { preferSynced := some false })
     (by decide)).1
     (.arr [{ plainLyrics := some "words" }])
     ⟨"A", "T", "", none, some "words", "lrclib.net", false⟩
     rfl (by decide)⟩

theorem searchTier3_ne_error (t : Transport) (md : TrackMetadata)
    (ps allow : Bool) (em am : Option LyricResult) (qs : List QueryKind)
    (d3 : ResponseData) (h3 : t.titleOnlyResp = .ok d3)
    (e : LyricsFetchError) :
    (searchTier3 t md ps allow em am qs).1 ≠ .fetchError e := by
  unfold searchTier3 findByTitleOnly
  rw [h3]
  cases allow
  · simpa using fallbackReturn_fst_ne_error em am none qs e
  · cases hm : findByTitleOnlyData d3 md with
    | none =>
      simp only [hm]
      simpa using fallbackReturn_fst_ne_error em am none _ e
    | some r =>
      cases hc : continueSearch ps r
      · simp [hm, hc]
      · simp only [hm, hc, if_true]
        simpa using fallbackReturn_fst_ne_error em am (some r) _ e

theorem searchTier2_ne_error (t : Transport) (md : TrackMetadata)
    (ps allow : Bool) (em : Option LyricResult) (qs : List QueryKind)
    (d2 d3 : ResponseData) (h2 : t.artistTitleResp = .ok d2)
    (h3 : t.titleOnlyResp = .ok d3) (e : LyricsFetchError) :
    (searchTier2 t md ps allow em qs).1 ≠ .fetchError e := by
  unfold searchTier2 findByArtistAndTitle
  rw [h2]
  cases hm : findByArtistAndTitleData d2 md with
  | none =>
    simp only [hm]
    simpa using searchTier3_ne_error t md ps allow em none _ d3 h3 e
  | some r =>
    cases hc : continueSearch ps r
    · simp [hm, hc]
    · simp only [hm, hc, if_true]
      simpa using searchTier3_ne_error t md ps allow em (some r) _ d3 h3 e

/-- C2: `resolve` signals a `LyricsFetchError` exactly when an underlying
transport query fails: the failing tier aborts the whole call with an error
carrying the searched artist and title, later tiers are not attempted and no
fallback is returned; with all transports healthy no error is possible, and
when no tier yields a candidate the result is NotFound. -/
theorem resolve_errors_iff_transport_fails (t : Transport)
    (md : TrackMetadata) (o : Option LyricSearchOptions) :
    (∀ msg, t.exactResp = .err msg →
      searchLyrics t md o =
        (.fetchError ⟨md.artist, md.title, msg⟩, [QueryKind.exact])) ∧
    (∀ d1 msg, t.exactResp = .ok d1 →
      (findExactMatchData d1 md = none ∨
        ∃ r, findExactMatchData d1 md = some r ∧
          continueSearch (getPreferSynced o) r = true) →
      t.artistTitleResp = .err msg →
      searchLyrics t md o =
        (.fetchError ⟨md.artist, md.title,
          LyricsFetchError.message ⟨md.artist, md.title, msg⟩⟩,
         [QueryKind.exact, QueryKind.artistTitle])) ∧
    (∀ d1 d2 msg, t.exactResp = .ok d1 →
      (findExactMatchData d1 md = none ∨
        ∃ r, findExactMatchData d1 md = some r ∧
          continueSearch (getPreferSynced o) r = true) →
      t.artistTitleResp = .ok d2 →
      (findByArtistAndTitleData d2 md = none ∨
        ∃ r, findByArtistAndTitleData d2 md = some r ∧
          continueSearch (getPreferSynced o) r = true) →
      getAllowTitleOnly o = true →
      t.titleOnlyResp = .err msg →
      searchLyrics t md o =
        (.fetchError ⟨md.artist, md.title,
          LyricsFetchError.message ⟨md.artist, md.title, msg⟩⟩,
         [QueryKind.exact, QueryKind.artistTitle, QueryKind.titleOnly])) ∧
    (∀ d1 d2 d3, t.exactResp = .ok d1 → t.artistTitleResp = .ok d2 →
      t.titleOnlyResp = .ok d3 →
      ∀ e, (searchLyrics t md o).1 ≠ .fetchError e) ∧
    (∀ d1 d2 d3, t.exactResp = .ok d1 → t.artistTitleResp = .ok d2 →
      t.titleOnlyResp = .ok d3 →
      findExactMatchData d1 md = none →
      findByArtistAndTitleData d2 md = none →
      (getAllowTitleOnly o = true → findByTitleOnlyData d3 md = none) →
      (searchLyrics t md o).1 = .notFound) := by
  refine ⟨?_, ?_, ?_, ?_, ?_⟩
  · intro msg h1
    unfold searchLyrics findExactMatch
    rw [h1]
  · intro d1 msg h1 hreach h2
    unfold searchLyrics findExactMatch searchTier2 findByArtistAndTitle
    rw [h1, h2]
    rcases hreach with hm1 | ⟨r, hr, hc⟩
    · simp [hm1]
    · simp [hr, hc]
  · intro d1 d2 msg h1 hreach1 h2 hreach2 hallow h3
    unfold searchLyrics findExactMatch searchTier2 findByArtistAndTitle
      searchTier3 findByTitleOnly
    rw [h1, h2, h3, hallow]
    rcases hreach1 with hm1 | ⟨r, hr, hc⟩ <;>
      rcases hreach2 with hm2 | ⟨r2, hr2, hc2⟩ <;>
      simp_all
  · intro d1 d2 d3 h1 h2 h3 e
    unfold searchLyrics findExactMatch
    rw [h1]
    cases hm1 : findExactMatchData d1 md with
    | none =>
      simp only [hm1]
      simpa using searchTier2_ne_error t md _ _ none _ d2 d3 h2 h3 e
    | some r =>
      cases hc : continueSearch (getPreferSynced o) r
      · simp [hm1, hc]
      · simp only [hm1, hc, if_true]
        simpa using searchTier2_ne_error t md _ _ (some r) _ d2 d3 h2 h3 e
  · intro d1 d2 d3 h1 h2 h3 hm1 hm2 hm3
    unfold searchLyrics findExactMatch searchTier2 findByArtistAndTitle
      searchTier3 findByTitleOnly
    rw [h1, h2, h3]
    cases hallow : getAllowTitleOnly o with
    | false => simp [hallow, hm1, hm2, fallbackReturn]
    | true => simp [hallow, hm1, hm2, hm3 hallow, fallbackReturn]

theorem resolve_errors_iff_transport_fails_witness :
    (TransportResult.err "timeout" = TransportResult.err "timeout") ∧
    searchLyrics ⟨.err "timeout", .ok .nullData, .ok .nullData⟩
      ⟨"A", "T", none, none⟩ none =
      (.fetchError ⟨"A", "T", "timeout"⟩, [QueryKind.exact]) :=
  ⟨rfl,
   (resolve_errors_iff_transport_fails
     ⟨.err "timeout", .ok .nullData, .ok .nullData⟩
     ⟨"A", "T", none, none⟩ none).1 "timeout" rfl⟩

theorem jsOrS_assoc (a b c : Option String) :
    jsOrS (jsOrS a b) c = jsOrS a (jsOrS b c) := by
  cases a with
  | none => rfl
  | some s => by_cases h : s = "" <;> simp [jsOrS, h]

theorem probeKeys_cons (o : Option String) (rest : List (Option String)) :
    probeKeys (o :: rest) = jsOrS o (probeKeys rest) := by
  cases o with
  | none => rfl
  | some s => by_cases h : s = "" <;> simp [probeKeys, jsOrS, h]

theorem jsOrS3_none_eq_probe (a b c : Option String) :
    jsOrS (jsOrS (jsOrS a b) c) none = probeKeys [a, b, c] := by
  rw [jsOrS_assoc, jsOrS_assoc, probeKeys_cons, probeKeys_cons,
    probeKeys_cons]
  rfl

theorem jsOrS4_none_eq_probe (a b c d : Option String) :
    jsOrS (jsOrS (jsOrS (jsOrS a b) c) d) none = probeKeys [a, b, c, d] := by
  rw [jsOrS_assoc, jsOrS_assoc, jsOrS_assoc, probeKeys_cons, probeKeys_cons,
    probeKeys_cons, probeKeys_cons]
  rfl

theorem jsOrS_getD_swap (x : Option String) (fb : String) :
    (jsOrS x (some fb)).getD "" = (jsOrS x none).getD fb := by
  cases x with
  | none => rfl
  | some s => by_cases h : s = "" <;> simp [jsOrS, h]

theorem jsOrS_none_some_ne_empty (x : Option String) (s : String)
    (h : jsOrS x none = some s) : s ≠ "" := by
  cases x with
  | none => exact absurd h (by simp [jsOrS])
  | some t =>
    by_cases ht : t = ""
    · simp [jsOrS, ht] at h
    · simp [jsOrS, ht] at h
      subst h
      exact ht

/-- C8: the mapper fills each logical field by probing the ordered key
spellings and taking the first present, non-empty value, with the query
metadata as final fallback for artist, title and album. -/
theorem mapper_probes_ordered_aliases (c : RawCandidate) (md : TrackMetadata)
    (r : LyricResult) (h : processApiResponse c md = some r) :
    r.artist =
      (probeKeys [c.artistName, c.artist_name, c.artist]).getD md.artist ∧
    r.title =
      (probeKeys [c.trackName, c.track_name, c.title]).getD md.title ∧
    r.album =
      (probeKeys [c.albumName, c.album_name, c.album, md.album]).getD "" ∧
    r.syncedLyrics = probeKeys [c.syncedLyrics, c.synced_lyrics, c.lrc] ∧
    r.plainLyrics = probeKeys [c.plainLyrics, c.plain_lyrics, c.text] := by
  unfold processApiResponse at h
  cases he : c.isEmptyObj with
  | true => simp [he] at h
  | false =>
    simp only [he, Bool.false_eq_true, if_false] at h
    split at h
    · exact absurd h (by simp)
    · have hr := Option.some.inj h
      subst hr
      refine ⟨?_, ?_, ?_, ?_, ?_⟩ <;> dsimp only
      · rw [jsOrS_getD_swap, jsOrS3_none_eq_probe]
      · rw [jsOrS_getD_swap, jsOrS3_none_eq_probe]
      · rw [jsOrS_getD_swap, jsOrS4_none_eq_probe]
      · rw [jsOrS3_none_eq_probe]
      · rw [jsOrS3_none_eq_probe]

theorem mapper_probes_ordered_aliases_witness :
    processApiResponse
      { artist_name := some "Artist X", albumName := some "",
        plainLyrics := some "la la" }
      ⟨"A", "T", some "Alb", none⟩ =
      some ⟨"Artist X", "T", "Alb", none, some "la la", "lrclib.net",
        false⟩ ∧
    ("Artist X" =
      (probeKeys [none, some "Artist X", none]).getD "A" ∧
     "T" = (probeKeys [none, none, none]).getD "T" ∧
     "Alb" = (probeKeys [some "", none, none, some "Alb"]).getD "" ∧
     (none : Option String) = probeKeys [none, none, none] ∧
     some "la la" = probeKeys [some "la la", none, none]) :=
  ⟨by decide,
   mapper_probes_ordered_aliases
     { artist_name := some "Artist X", albumName := some "",
       plainLyrics := some "la la" }
     ⟨"A", "T", some "Alb", none⟩
     ⟨"Artist X", "T", "Alb", none, some "la la", "lrclib.net", false⟩
     (by decide)⟩

theorem processApiResponse_contentBearing (c : RawCandidate)
    (md : TrackMetadata) (r : LyricResult)
    (h : processApiResponse c md = some r) : contentBearing r := by
  unfold processApiResponse at h
  cases he : c.isEmptyObj with
  | true => simp [he] at h
  | false =>
    simp only [he, Bool.false_eq_true, if_false] at h
    split at h
    · exact absurd h (by simp)
    · next hcond =>
      have hr := Option.some.inj h
      subst hr
      unfold contentBearing
      dsimp only
      cases hS : jsOrS (jsOrS (jsOrS c.syncedLyrics c.synced_lyrics)
          c.lrc) none with
      | some s => exact Or.inl ⟨s, rfl, jsOrS_none_some_ne_empty _ s hS⟩
      | none =>
        cases hP : jsOrS (jsOrS (jsOrS c.plainLyrics c.plain_lyrics)
            c.text) none with
        | some p =>
          exact Or.inr (Or.inl ⟨p, rfl, jsOrS_none_some_ne_empty _ p hP⟩)
        | none =>
          refine Or.inr (Or.inr ?_)
          simp [hS, hP] at hcond
          exact hcond

theorem findExactMatchData_contentBearing (d : ResponseData)
    (md : TrackMetadata) (r : LyricResult)
    (h : findExactMatchData d md = some r) : contentBearing r := by
  cases d with
  | nullData => simp [findExactMatchData] at h
  | arr cs =>
    cases cs with
    | nil => simp [findExactMatchData] at h
    | cons c rest => exact processApiResponse_contentBearing c md r h
  | obj c => exact processApiResponse_contentBearing c md r h

theorem findByArtistAndTitleData_contentBearing (d : ResponseData)
    (md : TrackMetadata) (r : LyricResult)
    (h : findByArtistAndTitleData d md = some r) : contentBearing r := by
  cases d with
  | nullData => simp [findByArtistAndTitleData] at h
  | arr cs =>
    cases cs with
    | nil => simp [findByArtistAndTitleData] at h
    | cons c rest => exact processApiResponse_contentBearing c md r h
  | obj c => exact processApiResponse_contentBearing c md r h

theorem findByTitleOnlyData_contentBearing (d : ResponseData)
    (md : TrackMetadata) (r : LyricResult)
    (h : findByTitleOnlyData d md = some r) : contentBearing r := by
  cases d with
  | nullData => simp [findByTitleOnlyData] at h
  | arr cs =>
    cases cs with
    | nil => simp [findByTitleOnlyData] at h
    | cons c rest =>
      unfold findByTitleOnlyData at h
      cases hb : findBestMatch (c :: rest) md with
      | none =>
        simp only [hb] at h
        exact absurd h (by simp)
      | some best =>
        simp only [hb] at h
        exact processApiResponse_contentBearing best md r h
  | obj c => exact processApiResponse_contentBearing c md r h

theorem fallbackReturn_found (em am tm : Option LyricResult)
    (qs : List QueryKind) (r : LyricResult)
    (h : (fallbackReturn em am tm qs).1 = .found r) :
    em = some r ∨ am = some r ∨ tm = some r := by
  cases em <;> cases am <;> cases tm <;> simp_all [fallbackReturn]

theorem searchTier3_found (t : Transport) (md : TrackMetadata)
    (ps allow : Bool) (em am : Option LyricResult) (qs : List QueryKind)
    (r : LyricResult) (h : (searchTier3 t md ps allow em am qs).1 = .found r) :
    em = some r ∨ am = some r ∨
    ∃ d3, t.titleOnlyResp = .ok d3 ∧ findByTitleOnlyData d3 md = some r := by
  unfold searchTier3 findByTitleOnly at h
  cases allow with
  | false =>
    simp only [Bool.false_eq_true, if_false] at h
    rcases fallbackReturn_found em am none qs r h with he | ha | ht
    · exact Or.inl he
    · exact Or.inr (Or.inl ha)
    · exact absurd ht (by simp)
  | true =>
    simp only [if_true] at h
    cases hresp : t.titleOnlyResp with
    | err msg => simp [hresp] at h
    | ok d3 =>
      simp only [hresp] at h
      cases hm : findByTitleOnlyData d3 md with
      | none =>
        simp only [hm] at h
        rcases fallbackReturn_found em am none _ r h with he | ha | ht
        · exact Or.inl he
        · exact Or.inr (Or.inl ha)
        · exact absurd ht (by simp)
      | some rr =>
        simp only [hm] at h
        cases hc : continueSearch ps rr with
        | true =>
          simp only [hc, if_true] at h
          rcases fallbackReturn_found em am (some rr) _ r h with he | ha | ht
          · exact Or.inl he
          · exact Or.inr (Or.inl ha)
          · refine Or.inr (Or.inr ⟨d3, rfl, ?_⟩)
            rw [hm]
            exact ht
        | false =>
          simp only [hc, Bool.false_eq_true, if_false] at h
          simp only [ResolveOutcome.found.injEq] at h
          exact Or.inr (Or.inr ⟨d3, rfl, by rw [hm, h]⟩)

theorem searchTier2_found (t : Transport) (md : TrackMetadata)
    (ps allow : Bool) (em : Option LyricResult) (qs : List QueryKind)
    (r : LyricResult) (h : (searchTier2 t md ps allow em qs).1 = .found r) :
    em = some r ∨
    (∃ d2, t.artistTitleResp = .ok d2 ∧
      findByArtistAndTitleData d2 md = some r) ∨
    (∃ d3, t.titleOnlyResp = .ok d3 ∧ findByTitleOnlyData d3 md = some r) := by
  unfold searchTier2 findByArtistAndTitle at h
  cases hresp : t.artistTitleResp with
  | err msg => simp [hresp] at h
  | ok d2 =>
    simp only [hresp] at h
    cases hm : findByArtistAndTitleData d2 md with
    | none =>
      simp only [hm] at h
      rcases searchTier3_found t md ps allow em none _ r h with he | ha | ht
      · exact Or.inl he
      · exact absurd ha (by simp)
      · exact Or.inr (Or.inr ht)
    | some rr =>
      simp only [hm] at h
      cases hc : continueSearch ps rr with
      | true =>
        simp only [hc, if_true] at h
        rcases searchTier3_found t md ps allow em (some rr) _ r h
          with he | ha | ht
        · exact Or.inl he
        · refine Or.inr (Or.inl ⟨d2, rfl, ?_⟩)
          rw [hm]
          exact ha
        · exact Or.inr (Or.inr ht)
      | false =>
        simp only [hc, Bool.false_eq_true, if_false] at h
        simp only [ResolveOutcome.found.injEq] at h
        exact Or.inr (Or.inl ⟨d2, rfl, by rw [hm, h]⟩)

/-- C7: every `LyricResult` returned by `resolve` — fallback returns
included — has non-empty synced lyrics, non-empty plain lyrics, or the
instrumental flag; a contentless mapped candidate is never returned. -/
theorem resolve_returns_only_content_bearing (t : Transport)
    (md : TrackMetadata) (o : Option LyricSearchOptions) (r : LyricResult)
    (h : (searchLyrics t md o).1 = .found r) : contentBearing r := by
  unfold searchLyrics findExactMatch at h
  cases hresp : t.exactResp with
  | err msg => simp [hresp] at h
  | ok d1 =>
    simp only [hresp] at h
    cases hm1 : findExactMatchData d1 md with
    | none =>
      simp only [hm1] at h
      rcases searchTier2_found t md _ _ none _ r h with he | ha | ht
      · exact absurd he (by simp)
      · rcases ha with ⟨d2, _, hm2⟩
        exact findByArtistAndTitleData_contentBearing d2 md r hm2
      · rcases ht with ⟨d3, _, hm3⟩
        exact findByTitleOnlyData_contentBearing d3 md r hm3
    | some r1 =>
      simp only [hm1] at h
      cases hc : continueSearch (getPreferSynced o) r1 with
      | false =>
        simp only [hc, Bool.false_eq_true, if_false] at h
        simp only [ResolveOutcome.found.injEq] at h
        subst h
        exact findExactMatchData_contentBearing d1 md r1 hm1
      | true =>
        simp only [hc, if_true] at h
        rcases searchTier2_found t md _ _ (some r1) _ r h with he | ha | ht
        · have : r1 = r := Option.some.inj he
          subst this
          exact findExactMatchData_contentBearing d1 md r1 hm1
        · rcases ha with ⟨d2, _, hm2⟩
          exact findByArtistAndTitleData_contentBearing d2 md r hm2
        · rcases ht with ⟨d3, _, hm3⟩
          exact findByTitleOnlyData_contentBearing d3 md r hm3

theorem resolve_returns_only_content_bearing_witness :
    ((searchLyrics ⟨.ok (.arr [{ plainLyrics := some "words" }]),
        .ok .nullData, .ok .nullData⟩
      ⟨"A", "T", none, none⟩ none).1 =
     .found ⟨"A", "T", "", none, some "words", "lrclib.net", false⟩) ∧
    contentBearing ⟨"A", "T", "", none, some "words", "lrclib.net", false⟩ :=
  ⟨by decide,
   resolve_returns_only_content_bearing
     ⟨.ok (.arr [{ plainLyrics := some "words" }]), .ok .nullData,
       .ok .nullData⟩
     ⟨"A", "T", none, none⟩ none
     ⟨"A", "T", "", none, some "words", "lrclib.net", false⟩ (by decide)⟩

theorem emptyBody_data_none (d : ResponseData) (md : TrackMetadata)
    (hd : emptyBody d) :
    findExactMatchData d md = none ∧ findByArtistAndTitleData d md = none ∧
    findByTitleOnlyData d md = none := by
  have hpe : processApiResponse {} md = none := by
    unfold processApiResponse
    rw [show ({} : RawCandidate).isEmptyObj = true from rfl]
    simp
  rcases hd with rfl | rfl | rfl
  · exact ⟨rfl, rfl, rfl⟩
  · exact ⟨rfl, rfl, rfl⟩
  · exact ⟨hpe, hpe, hpe⟩

theorem searchTier2_mem_artistTitle (t : Transport) (md : TrackMetadata)
    (ps allow : Bool) (em : Option LyricResult) (qs : List QueryKind) :
    QueryKind.artistTitle ∈ (searchTier2 t md ps allow em qs).2 := by
  rcases searchTier2_snd t md ps allow em qs with h | h <;> rw [h] <;> simp

theorem searchTier3_allowed_snd (t : Transport) (md : TrackMetadata)
    (ps : Bool) (em am : Option LyricResult) (qs : List QueryKind) :
    (searchTier3 t md ps true em am qs).2 = qs ++ [QueryKind.titleOnly] := by
  unfold searchTier3 findByTitleOnly
  simp only [if_true]
  cases hresp : t.titleOnlyResp with
  | err msg => simp
  | ok d3 =>
    cases hm : findByTitleOnlyData d3 md with
    | none => simp [hm, fallbackReturn_snd]
    | some r =>
      cases hc : continueSearch ps r <;> simp [hm, hc, fallbackReturn_snd]

/-- C6: a null, empty-array or empty-object response body means "no candidate
this tier": each tier function yields nothing on it, `resolve` proceeds to
the next permitted tier instead of throwing, and a singleton-object body is
handled exactly like a one-element array. -/
theorem empty_bodies_are_no_candidate (t : Transport) (md : TrackMetadata)
    (o : Option LyricSearchOptions) (d1 d2 : ResponseData) (c : RawCandidate)
    (hd1 : emptyBody d1) (hd2 : emptyBody d2)
    (h1 : t.exactResp = .ok d1) (h2 : t.artistTitleResp = .ok d2) :
    (findExactMatchData d1 md = none ∧ findByArtistAndTitleData d1 md = none ∧
      findByTitleOnlyData d1 md = none) ∧
    QueryKind.artistTitle ∈ (searchLyrics t md o).2 ∧
    (getAllowTitleOnly o = true →
      QueryKind.titleOnly ∈ (searchLyrics t md o).2) ∧
    (∀ d3, t.titleOnlyResp = .ok d3 →
      ∀ e, (searchLyrics t md o).1 ≠ .fetchError e) ∧
    (findExactMatchData (.obj c) md = findExactMatchData (.arr [c]) md ∧
     findByArtistAndTitleData (.obj c) md =
       findByArtistAndTitleData (.arr [c]) md ∧
     findByTitleOnlyData (.obj c) md = findByTitleOnlyData (.arr [c]) md) := by
  have hm1 := (emptyBody_data_none d1 md hd1).1
  have hm2 := (emptyBody_data_none d2 md hd2).2.1
  refine ⟨emptyBody_data_none d1 md hd1, ?_, ?_, ?_, ?_, ?_, ?_⟩
  · unfold searchLyrics findExactMatch
    rw [h1]
    simp only [hm1]
    exact searchTier2_mem_artistTitle t md _ _ none _
  · intro hallow
    unfold searchLyrics findExactMatch searchTier2 findByArtistAndTitle
    rw [h1, h2]
    simp only [hm1, hm2, hallow]
    rw [searchTier3_allowed_snd]
    simp
  · intro d3 h3 e
    unfold searchLyrics findExactMatch
    rw [h1]
    simp only [hm1]
    exact searchTier2_ne_error t md _ _ none _ d2 d3 h2 h3 e
  · rfl
  · rfl
  · unfold findByTitleOnlyData
    dsimp only
    rw [findBestMatch_singleton]

theorem empty_bodies_are_no_candidate_witness :
    emptyBody (.obj {}) ∧ emptyBody (.arr []) ∧
    (TransportResult.ok (ResponseData.obj {}) = .ok (.obj {})) ∧
    QueryKind.artistTitle ∈
      (searchLyrics ⟨.ok (.obj {}), .ok (.arr []), .ok .nullData⟩
        ⟨"A", "T", none, none⟩ none).2 :=
  ⟨Or.inr (Or.inr rfl), Or.inr (Or.inl rfl), rfl,
   (empty_bodies_are_no_candidate
     ⟨.ok (.obj {}), .ok (.arr []), .ok .nullData⟩
     ⟨"A", "T", none, none⟩ none (.obj {}) (.arr []) {}
     (Or.inr (Or.inr rfl)) (Or.inr (Or.inl rfl)) rfl rfl).2.1⟩

theorem searchTier3_preferSynced_char (t : Transport) (md : TrackMetadata)
    (allow : Bool) (em am : Option LyricResult) (qs : List QueryKind)
    (d3 : ResponseData) (h3 : t.titleOnlyResp = .ok d3) :
    searchTier3 t md true allow em am qs =
      match (if allow then findByTitleOnlyData d3 md else none) with
      | some r =>
        if satisfiesPreference r
        then (.found r, qs ++ [QueryKind.titleOnly])
        else fallbackReturn em am (some r) (qs ++ [QueryKind.titleOnly])
      | none =>
        fallbackReturn em am none
          (if allow then qs ++ [QueryKind.titleOnly] else qs) := by
  unfold searchTier3 findByTitleOnly
  rw [h3]
  cases allow with
  | false => simp
  | true =>
    simp only [if_true]
    cases hm : findByTitleOnlyData d3 md with
    | none => simp [hm]
    | some r =>
      simp only [hm]
      rw [continueSearch_true_eq]
      cases hs : satisfiesPreference r <;> simp [hs]

theorem searchTier2_preferSynced_char (t : Transport) (md : TrackMetadata)
    (allow : Bool) (em : Option LyricResult) (qs : List QueryKind)
    (d2 : ResponseData) (h2 : t.artistTitleResp = .ok d2) :
    searchTier2 t md true allow em qs =
      match findByArtistAndTitleData d2 md with
      | some r =>
        if satisfiesPreference r
        then (.found r, qs ++ [QueryKind.artistTitle])
        else searchTier3 t md true allow em (some r)
          (qs ++ [QueryKind.artistTitle])
      | none =>
        searchTier3 t md true allow em none
          (qs ++ [QueryKind.artistTitle]) := by
  unfold searchTier2 findByArtistAndTitle
  rw [h2]
  cases hm : findByArtistAndTitleData d2 md with
  | none => simp [hm]
  | some r =>
    simp only [hm]
    rw [continueSearch_true_eq]
    cases hs : satisfiesPreference r <;> simp [hs]

theorem searchLyrics_preferSynced_char (t : Transport) (md : TrackMetadata)
    (o : Option LyricSearchOptions) (d1 : ResponseData)
    (hp : getPreferSynced o = true) (h1 : t.exactResp = .ok d1) :
    searchLyrics t md o =
      match findExactMatchData d1 md with
      | some r =>
        if satisfiesPreference r
        then (.found r, [QueryKind.exact])
        else searchTier2 t md true (getAllowTitleOnly o) (some r)
          [QueryKind.exact]
      | none =>
        searchTier2 t md true (getAllowTitleOnly o) none
          [QueryKind.exact] := by
  unfold searchLyrics findExactMatch
  rw [h1, hp]
  cases hm : findExactMatchData d1 md with
  | none => simp [hm]
  | some r =>
    simp only [hm]
    rw [continueSearch_true_eq]
    cases hs : satisfiesPreference r <;> simp [hs]

/-- C1: with `preferSynced=true` a content-bearing but neither-synced-nor-
instrumental tier match is recorded instead of returned, the search proceeds
to the next permitted tier, a later synced-or-instrumental match wins, and if
no tier fully satisfies, the first recorded fallback in tier order is
returned. -/
theorem searchLyrics_prefer_synced_fallback_policy (t : Transport)
    (md : TrackMetadata) (o : Option LyricSearchOptions)
    (d1 d2 d3 : ResponseData) (hp : getPreferSynced o = true)
    (h1 : t.exactResp = .ok d1) (h2 : t.artistTitleResp = .ok d2)
    (h3 : t.titleOnlyResp = .ok d3) :
    (searchLyrics t md o).1 =
      preferSyncedPolicy (findExactMatchData d1 md)
        (findByArtistAndTitleData d2 md)
        (if getAllowTitleOnly o then findByTitleOnlyData d3 md else none) ∧
    (∀ r, findExactMatchData d1 md = some r → satisfiesPreference r = false →
      QueryKind.artistTitle ∈ (searchLyrics t md o).2) := by
  constructor
  · rw [searchLyrics_preferSynced_char t md o d1 hp h1]
    cases hm1 : findExactMatchData d1 md with
    | some r1 =>
      cases hs1 : satisfiesPreference r1 with
      | true => simp [preferSyncedPolicy, firstPreferred, hs1]
      | false =>
        simp only [hs1, Bool.false_eq_true, if_false]
        rw [searchTier2_preferSynced_char t md _ (some r1) _ d2 h2]
        cases hm2 : findByArtistAndTitleData d2 md with
        | some r2 =>
          cases hs2 : satisfiesPreference r2 with
          | true =>
            simp [preferSyncedPolicy, firstPreferred, hs1, hs2]
          | false =>
            simp only [hs2, Bool.false_eq_true, if_false]
            rw [searchTier3_preferSynced_char t md _ (some r1) (some r2) _
              d3 h3]
            cases hm3 : (if getAllowTitleOnly o
                then findByTitleOnlyData d3 md else none) with
            | some r3 =>
              cases hs3 : satisfiesPreference r3 with
              | true =>
                simp [preferSyncedPolicy, firstPreferred, hs1, hs2, hs3]
              | false =>
                simp [preferSyncedPolicy, firstPreferred, firstRecorded,
                  fallbackReturn, hs1, hs2, hs3]
            | none =>
              simp [preferSyncedPolicy, firstPreferred, firstRecorded,
                fallbackReturn, hs1, hs2]
        | none =>
          rw [searchTier3_preferSynced_char t md _ (some r1) none _ d3 h3]
          cases hm3 : (if getAllowTitleOnly o
              then findByTitleOnlyData d3 md else none) with
          | some r3 =>
            cases hs3 : satisfiesPreference r3 with
            | true =>
              simp [preferSyncedPolicy, firstPreferred, hs1, hs3]
            | false =>
              simp [preferSyncedPolicy, firstPreferred, firstRecorded,
                fallbackReturn, hs1, hs3]
          | none =>
            simp [preferSyncedPolicy, firstPreferred, firstRecorded,
              fallbackReturn, hs1]
    | none =>
      rw [searchTier2_preferSynced_char t md _ none _ d2 h2]
      cases hm2 : findByArtistAndTitleData d2 md with
      | some r2 =>
        cases hs2 : satisfiesPreference r2 with
        | true => simp [preferSyncedPolicy, firstPreferred, hs2]
        | false =>
          simp only [hs2, Bool.false_eq_true, if_false]
          rw [searchTier3_preferSynced_char t md _ none (some r2) _ d3 h3]
          cases hm3 : (if getAllowTitleOnly o
              then findByTitleOnlyData d3 md else none) with
          | some r3 =>
            cases hs3 : satisfiesPreference r3 with
            | true =>
              simp [preferSyncedPolicy, firstPreferred, hs2, hs3]
            | false =>
              simp [preferSyncedPolicy, firstPreferred, firstRecorded,
                fallbackReturn, hs2, hs3]
          | none =>
            simp [preferSyncedPolicy, firstPreferred, firstRecorded,
              fallbackReturn, hs2]
      | none =>
        rw [searchTier3_preferSynced_char t md _ none none _ d3 h3]
        cases hm3 : (if getAllowTitleOnly o
            then findByTitleOnlyData d3 md else none) with
        | some r3 =>
          cases hs3 : satisfiesPreference r3 with
          | true =>
            simp [preferSyncedPolicy, firstPreferred, hs3]
          | false =>
            simp [preferSyncedPolicy, firstPreferred, firstRecorded,
              fallbackReturn, hs3]
        | none =>
          simp [preferSyncedPolicy, firstPreferred, firstRecorded,
            fallbackReturn]
  · intro r hm hs
    rw [searchLyrics_preferSynced_char t md o d1 hp h1]
    simp only [hm, hs, Bool.false_eq_true, if_false]
    exact searchTier2_mem_artistTitle t md true (getAllowTitleOnly o)
      (some r) [QueryKind.exact]

theorem searchLyrics_prefer_synced_fallback_policy_witness :
    getPreferSynced none = true ∧
    (searchLyrics
      ⟨.ok (.arr [{ plainLyrics := some "words" }]),
       .ok (.arr [{ syncedLyrics := some "[00:01] w" }]),
       .ok .nullData⟩
      ⟨"A", "T", none, none⟩ none).1 =
    preferSyncedPolicy
      (findExactMatchData (.arr [{ plainLyrics := some "words" }])
        ⟨"A", "T", none, none⟩)
      (findByArtistAndTitleData (.arr [{ syncedLyrics := some "[00:01] w" }])
        ⟨"A", "T", none, none⟩)
      (if getAllowTitleOnly none
        then findByTitleOnlyData .nullData ⟨"A", "T", none, none⟩
        else none) :=
  ⟨by decide,
   (searchLyrics_prefer_synced_fallback_policy
     ⟨.ok (.arr [{ plainLyrics := some "words" }]),
      .ok (.arr [{ syncedLyrics := some "[00:01] w" }]),
      .ok .nullData⟩
     ⟨"A", "T", none, none⟩ none
     (.arr [{ plainLyrics := some "words" }])
     (.arr [{ syncedLyrics := some "[00:01] w" }])
     .nullData (by decide) rfl rfl rfl).1⟩

end LrcLib

